/-
Verification of the delta-detection and sync core of the alpha-content-engine
repository (main.py, src/scraper.py, src/uploader.py).

The Python code is shallowly embedded: pure string processing is translated
function-for-function; file and network effects are made explicit (the prior
metadata snapshot, the run configuration, and the outcomes of remote calls are
inputs; the written snapshot, saved configurations, and the trace of remote
calls are outputs).  Two library calls are modelled rather than translated,
each marked in its doc comment: markdownify (identity on the text) and
hashlib.sha256 (injective tagging, the standard collision-freedom
idealisation).  The model restricts text to ASCII where Python regexes use
Unicode-aware classes; every claim here is about ASCII-level behaviour.
-/
import Mathlib

/-! ## Python string primitives -/

/-- Python whitespace class over ASCII: the characters matched by the regex
class backslash-s and stripped by str.strip. -/
def pyIsSpace (c : Char) : Bool :=
  c = ' ' || c = '\t' || c = '\n' || c = '\r' || c.toNat = 11 || c.toNat = 12

/-- Python word-character class (ASCII fragment): alphanumeric or underscore. -/
def isWordChar (c : Char) : Bool := c.isAlphanum || c = '_'

/-- Python slicing xs[:n] for an arbitrary integer bound n (negative bounds
count from the end, clamped at zero). -/
def pySliceTo (xs : List α) (n : Int) : List α :=
  if 0 ≤ n then xs.take n.toNat
  else xs.take ((xs.length : Int) + n).toNat

/-- The limit handling shared by both detect_changes implementations:
`if limit: articles = articles[:limit]`.  A limit of None or 0 is falsy in
Python, so no truncation happens in either case. -/
def pyTruncate (xs : List α) (limit : Option Int) : List α :=
  match limit with
  | none => xs
  | some n => if n = 0 then xs else pySliceTo xs n

/-- Python str.strip with no argument: remove leading and trailing
whitespace. -/
def pyStripChars (l : List Char) : List Char :=
  ((l.dropWhile pyIsSpace).reverse.dropWhile pyIsSpace).reverse

/-- Python str.strip on a String. -/
def pyStrip (s : String) : String := ⟨pyStripChars s.data⟩

/-- Substring containment, as Python's `in` operator on strings. -/
def hasSub (needle : List Char) : List Char → Bool
  | [] => needle.isEmpty
  | c :: t => needle.isPrefixOf (c :: t) || hasSub needle t

/-- Python str.split on a newline: split at every newline, keeping empty
pieces, so a string of n newlines yields n + 1 pieces. -/
def splitNl : List Char → List (List Char)
  | [] => [[]]
  | c :: cs =>
    let r := splitNl cs
    if c = '\n' then [] :: r
    else
      match r with
      | [] => [[c]]
      | h :: t => (c :: h) :: t

/-- Python str.join with a blank-line separator: interleave a double newline
between consecutive pieces. -/
def joinBlankLines : List String → String
  | [] => ""
  | [s] => s
  | s :: rest => s ++ "\n\n" ++ joinBlankLines rest

/-! ## Normalisation and slugs -/

/-- Modelled from the library call markdownify.markdownify: treated as the
identity on the input text.  Every claim settled here concerns only the
post-conversion whitespace handling and the hashing, which are this
repository's own code; the HTML-to-markdown conversion itself is a
third-party library. -/
def mdConvert (html : String) : String := html

/-- Modelled from the library call hashlib.sha256 with hexdigest, idealised as
an injective tagging of the content.  The claims about fingerprints rely only
on the standard collision-freedom idealisation of a cryptographic hash: equal
inputs give equal digests, distinct inputs give distinct digests.  Both
scraper classes define this method identically. -/
def calculate_content_hash (content : String) : String := "sha256:" ++ content

/-- Character class of the regex used by generate_slug to delete characters:
everything outside word, whitespace and hyphen is removed. -/
def slugKeep (c : Char) : Bool := isWordChar c || pyIsSpace c || c = '-'

/-- Character class of the collapsing regex in generate_slug: hyphen or
whitespace. -/
def isDashOrSpace (c : Char) : Bool := c = '-' || pyIsSpace c

/-- re.sub of one-or-more hyphen-or-whitespace with a single hyphen.  The
boolean records whether the previous character was inside such a run. -/
def collapseDashAux : Bool → List Char → List Char
  | _, [] => []
  | inRun, c :: cs =>
    if isDashOrSpace c then
      (if inRun then [] else ['-']) ++ collapseDashAux true cs
    else c :: collapseDashAux false cs

/-- Replace every maximal run of hyphens and whitespace with one hyphen. -/
def collapseDashRuns (l : List Char) : List Char := collapseDashAux false l

/-- Python str.strip with argument a hyphen: drop leading and trailing
hyphens. -/
def stripDashes (l : List Char) : List Char :=
  ((l.dropWhile (fun c => c = '-')).reverse.dropWhile (fun c => c = '-')).reverse

/-- Python str.lower over the ASCII fragment. -/
def pyLower (l : List Char) : List Char := l.map Char.toLower

/-- main.py generate_slug: lowercase, delete characters outside
word-space-hyphen, collapse hyphen-and-whitespace runs to single hyphens, and
trim hyphens from both ends.  main.py applies no length cap. -/
def MainPy.generate_slug (title : String) : String :=
  ⟨stripDashes (collapseDashRuns ((pyLower title.data).filter slugKeep))⟩

/-- src/scraper.py generate_slug: an empty (falsy) title maps to "untitled";
otherwise the same pipeline as main.py followed by slicing to the first 50
characters. -/
def ScraperPy.generate_slug (title : String) : String :=
  if title = "" then "untitled"
  else ⟨(stripDashes (collapseDashRuns ((pyLower title.data).filter slugKeep))).take 50⟩

/-- Emit a pending run of k newlines under the collapsing regex of
main.py clean_html_to_markdown: a run of three or more newlines becomes
exactly two, shorter runs are kept. -/
def nlFlush (k : Nat) : List Char :=
  if 3 ≤ k then ['\n', '\n'] else List.replicate k '\n'

/-- re.sub of three-or-more newlines with two newlines; the counter carries
the length of the newline run currently being read. -/
def collapseNlAux : Nat → List Char → List Char
  | k, [] => nlFlush k
  | k, c :: cs =>
    if c = '\n' then collapseNlAux (k + 1) cs
    else nlFlush k ++ (c :: collapseNlAux 0 cs)

/-- Replace every run of three or more newlines by exactly two. -/
def collapseNewlineRuns (l : List Char) : List Char := collapseNlAux 0 l

/-- main.py clean_html_to_markdown: empty (falsy) input maps to the empty
string; otherwise convert with markdownify, collapse newline runs of three or
more, and strip surrounding whitespace. -/
def MainPy.clean_html_to_markdown (html_content : String) : String :=
  if html_content = "" then ""
  else pyStrip ⟨collapseNewlineRuns (mdConvert html_content).data⟩

/-- The line filter of src/scraper.py clean_html_to_markdown: keep a stripped
line when it is non-empty, does not start with an asterisk, and its lowercase
form contains neither "navigation" nor "advertisement". -/
def scraperKeepLine (line : String) : Bool :=
  line ≠ "" && !("*".data.isPrefixOf line.data) &&
  !(hasSub "navigation".data (pyLower line.data)) &&
  !(hasSub "advertisement".data (pyLower line.data))

/-- src/scraper.py clean_html_to_markdown: empty (falsy) input maps to the
empty string; otherwise convert with markdownify, split on newlines, strip
each line, keep the lines passing the filter, and join with blank lines. -/
def ScraperPy.clean_html_to_markdown (html_content : String) : String :=
  if html_content = "" then ""
  else
    let lines := (splitNl (mdConvert html_content).data).map (fun l => pyStrip ⟨l⟩)
    joinBlankLines (lines.filter scraperKeepLine)

/-! ## Articles and the metadata dictionary -/

/-- A source document as both scrapers consume it: a Zendesk article record
accessed with dict.get, so every field may be absent. The id field holds the
str() image of the article id. -/
structure Article where
  id : Option String
  title : Option String
  body : Option String
  updated_at : Option String
  html_url : Option String
deriving DecidableEq

/-- str(article.get('id')): the stringified id, or "None" when absent. -/
def artId (a : Article) : String :=
  match a.id with
  | some s => s
  | none => "None"

/-- article.get('body', ''). -/
def artBody (a : Article) : String := a.body.getD ""

/-- Python dict membership test (key in d). Dictionaries are modelled as
insertion-ordered association lists with unique keys, which is exactly the
observable behaviour of a Python dict built only by item assignment. -/
def dictHasKey : List (String × β) → String → Bool
  | [], _ => false
  | p :: t, k => p.1 == k || dictHasKey t k

/-- Python dict lookup d.get(k) and, where the key is known present, d[k]. -/
def dictGet? : List (String × β) → String → Option β
  | [], _ => none
  | p :: t, k => if p.1 == k then some p.2 else dictGet? t k

/-- Python dict item assignment d[k] = v: overwrite in place at the key's
position when the key exists (keys are unique by construction), otherwise
append at the end. -/
def dictSet : List (String × β) → String → β → List (String × β)
  | [], k, v => [(k, v)]
  | p :: t, k, v => if p.1 == k then (k, v) :: t else p :: dictSet t k v

/-! ## Delta detection -/

/-- The metadata record src/scraper.py detect_changes stores per article, in
source field order: title, updated_at, content_hash, slug. -/
structure SMeta where
  title : String
  updated_at : String
  content_hash : String
  slug : String
deriving DecidableEq

/-- The metadata record main.py detect_changes stores per article, in source
field order: slug, title, hash, updated_at, last_checked.  The last_checked
field receives datetime.now().isoformat(); the clock reading is an explicit
input of the model. -/
structure MMeta where
  slug : String
  title : String
  hash : String
  updated_at : String
  last_checked : String
deriving DecidableEq

/-- The three branches of the classification in both detect_changes
implementations. -/
inductive Bucket
  | new
  | updated
  | unchanged
deriving DecidableEq

/-- Result of one detect_changes run: the three buckets, in source order, and
the metadata snapshot the run hands to save_metadata. -/
structure DetectResult (ρ : Type) where
  new : List Article
  updated : List Article
  unchanged : List Article
  snapshot : List (String × ρ)
deriving DecidableEq

/-- The record src/scraper.py detect_changes writes for one article. -/
def ScraperPy.srecOf (a : Article) : SMeta :=
  { title := a.title.getD "Untitled"
    updated_at := a.updated_at.getD ""
    content_hash := calculate_content_hash (artBody a)
    slug := ScraperPy.generate_slug (a.title.getD "Untitled") }

/-- The classification of one article in src/scraper.py detect_changes:
absent from the previous metadata means new; present with a different stored
content_hash means updated; otherwise unchanged.  The hash compared is that of
the raw body, exactly as the source computes it. -/
def ScraperPy.classify (prior : List (String × SMeta)) (a : Article) : Bucket :=
  if !(dictHasKey prior (artId a)) then .new
  else if (dictGet? prior (artId a)).map SMeta.content_hash
          ≠ some (calculate_content_hash (artBody a)) then .updated
  else .unchanged

/-- The loop body of src/scraper.py detect_changes: walk the considered
articles in order, write a fresh record for each into the accumulating
current metadata, and cons the article onto its bucket. -/
def ScraperPy.detectAux (prior : List (String × SMeta)) (meta : List (String × SMeta)) :
    List Article → DetectResult SMeta
  | [] => ⟨[], [], [], meta⟩
  | a :: rest =>
    let meta1 := dictSet meta (artId a) (ScraperPy.srecOf a)
    let r := ScraperPy.detectAux prior meta1 rest
    match ScraperPy.classify prior a with
    | .new => { r with new := a :: r.new }
    | .updated => { r with updated := a :: r.updated }
    | .unchanged => { r with unchanged := a :: r.unchanged }

/-- src/scraper.py detect_changes.  The previous metadata (load_metadata) is
an input and the saved metadata (save_metadata) is returned in the result;
the truncation reproduces `if limit: articles = articles[:limit]`. -/
def ScraperPy.detect_changes (articles : List Article) (limit : Option Int)
    (prior : List (String × SMeta)) : DetectResult SMeta :=
  ScraperPy.detectAux prior [] (pyTruncate articles limit)

/-- The fingerprint main.py detect_changes computes for one article: the
content hash of the markdown conversion of the body. -/
def MainPy.contentHashOf (a : Article) : String :=
  calculate_content_hash (MainPy.clean_html_to_markdown (artBody a))

/-- The record main.py detect_changes writes for one article; nowts is the
datetime.now().isoformat() reading of the run. -/
def MainPy.mrecOf (nowts : String) (a : Article) : MMeta :=
  { slug := MainPy.generate_slug (a.title.getD "untitled")
    title := a.title.getD "untitled"
    hash := MainPy.contentHashOf a
    updated_at := a.updated_at.getD ""
    last_checked := nowts }

/-- The classification of one article in main.py detect_changes, comparing
the stored hash field against the hash of the canonical markdown text. -/
def MainPy.classify (prior : List (String × MMeta)) (a : Article) : Bucket :=
  if !(dictHasKey prior (artId a)) then .new
  else if (dictGet? prior (artId a)).map MMeta.hash
          ≠ some (MainPy.contentHashOf a) then .updated
  else .unchanged

/-- The loop body of main.py detect_changes. -/
def MainPy.detectAux (prior : List (String × MMeta)) (meta : List (String × MMeta))
    (nowts : String) : List Article → DetectResult MMeta
  | [] => ⟨[], [], [], meta⟩
  | a :: rest =>
    let meta1 := dictSet meta (artId a) (MainPy.mrecOf nowts a)
    let r := MainPy.detectAux prior meta1 nowts rest
    match MainPy.classify prior a with
    | .new => { r with new := a :: r.new }
    | .updated => { r with updated := a :: r.updated }
    | .unchanged => { r with unchanged := a :: r.unchanged }

/-- main.py detect_changes, with the previous metadata and the clock reading
as explicit inputs; in the source, datetime.now() is read afresh per article,
modelled here as one reading per run since only the run it belongs to is ever
observable. -/
def MainPy.detect_changes (articles : List Article) (limit : Option Int)
    (prior : List (String × MMeta)) (nowts : String) : DetectResult MMeta :=
  MainPy.detectAux prior [] nowts (pyTruncate articles limit)

/-! ## scrape_articles -/

/-- One entry of the processed_files list built by scrape_articles. -/
structure FileEntry where
  filename : String
  content : String
  article_id : Option String
  title : Option String
deriving DecidableEq

/-- src/scraper.py save_article, with the file write dropped: returns the
filename and the full file content it builds. -/
def ScraperPy.save_article (a : Article) : String × String :=
  let title := a.title.getD "Untitled"
  let url := a.html_url.getD ""
  let slug := ScraperPy.generate_slug title
  let markdown := ScraperPy.clean_html_to_markdown (artBody a)
  (slug ++ ".md", "# " ++ title ++ "\n\n" ++ markdown ++ "\n\nArticle URL: " ++ url)

/-- The save loop of scrape_articles: the 1-based loop counter advances every
iteration; saveOk tells, per counter value, whether save_article succeeds.  A
failing save is caught and the article contributes no entry. -/
def ScraperPy.processAux (saveOk : Nat → Bool) : Nat → List Article → List FileEntry
  | _, [] => []
  | i, a :: rest =>
    if saveOk i then
      let fc := ScraperPy.save_article a
      ⟨fc.1, fc.2, a.id, a.title⟩ :: ScraperPy.processAux saveOk (i + 1) rest
    else ScraperPy.processAux saveOk (i + 1) rest

/-- The result dictionary of scrape_articles. -/
structure ScrapeResult where
  added : Nat
  updated : Nat
  skipped : Nat
  files : List FileEntry
deriving DecidableEq

/-- src/scraper.py scrape_articles, with the fetched article list, the prior
metadata and the per-iteration save outcomes as inputs.  main.py
scrape_articles has the same control flow line for line (it differs only in
the detect and save helpers it calls). -/
def ScraperPy.scrape_articles (articles : List Article) (limit : Option Int)
    (prior : List (String × SMeta)) (saveOk : Nat → Bool) : ScrapeResult :=
  if articles = [] then ⟨0, 0, 0, []⟩
  else
    let r := ScraperPy.detect_changes articles limit prior
    let toProcess := r.new ++ r.updated
    if toProcess = [] then ⟨0, 0, r.unchanged.length, []⟩
    else ⟨r.new.length, r.updated.length, r.unchanged.length,
          ScraperPy.processAux saveOk 1 toProcess⟩

/-! ## The sync driver (src/uploader.py) -/

/-- Python truthiness of an optional string: None and the empty string are
falsy. -/
def pyTruthyStr : Option String → Bool
  | none => false
  | some s => s ≠ ""

/-- Python's `a or b` over optional strings. -/
def pyOrStr (a b : Option String) : Option String :=
  if pyTruthyStr a then a else b

/-- The persisted optibot_config.json record, with every field the uploader
reads or writes.  Fields are optional because config.get is used on a dict
that may lack them. -/
structure Config where
  assistant_id : Option String
  vector_store_id : Option String
  last_upload : Option String
  files_uploaded : Option Nat
  vector_store_success : Option Bool
  attachment_success : Option Bool
  manual_attachment_required : Option Bool
  chunks_embedded : Option Nat
deriving DecidableEq

/-- A configuration with no recorded fields: the first-run load_config
result. -/
def emptyConfig : Config := ⟨none, none, none, none, none, none, none, none⟩

/-- One remote API call made by the uploader.  The batch poll loop is folded
into the createFileBatch outcome. -/
inductive RemoteCall
  | createAssistant
  | uploadFile (filename : String)
  | retrieveVectorStore (vsid : String)
  | createVectorStore
  | createFileBatch (vsid : String) (fileIds : List String)
  | updateAssistant (aid : String) (vsid : String)
deriving DecidableEq

/-- The environment of one run: the outcome of every remote call the run
could make.  none or false stands for the exception/failure the source
catches at that call site. -/
structure Remote where
  uploadResult : Nat → Option String
  createAssistantResult : Option String
  verifyVectorStore : String → Bool
  createVectorStoreResult : Option String
  batchAttachOk : Bool
  bindOk : Bool

/-- The loop of upload_files, indexed from 0: every attempt produces an
uploadFile call; a failed attempt (exception caught) contributes no file id.
Returns the uploaded file ids in order, and the call trace. -/
def UploaderPy.uploadAux (remote : Remote) : Nat → List FileEntry → List String × List RemoteCall
  | _, [] => ([], [])
  | i, f :: rest =>
    let r := UploaderPy.uploadAux remote (i + 1) rest
    match remote.uploadResult i with
    | some fid => (fid :: r.1, .uploadFile f.filename :: r.2)
    | none => (r.1, .uploadFile f.filename :: r.2)

/-- src/uploader.py upload_files: empty input returns immediately with no
calls. -/
def UploaderPy.upload_files (files : List FileEntry) (remote : Remote) :
    List String × List RemoteCall :=
  if files = [] then ([], []) else UploaderPy.uploadAux remote 0 files

/-- src/uploader.py get_or_create_vector_store: take the constructor-supplied
id or else the configured one; if that is truthy, verify it remotely and keep
it on success; otherwise (or on verification failure) create a new store,
which may itself fail, yielding none. -/
def UploaderPy.get_or_create_vector_store (selfVsid : Option String) (config : Config)
    (remote : Remote) : Option String × List RemoteCall :=
  let vsid := pyOrStr selfVsid config.vector_store_id
  match vsid with
  | some v =>
    if v ≠ "" then
      if remote.verifyVectorStore v then (some v, [.retrieveVectorStore v])
      else (remote.createVectorStoreResult, [.retrieveVectorStore v, .createVectorStore])
    else (remote.createVectorStoreResult, [.createVectorStore])
  | none => (remote.createVectorStoreResult, [.createVectorStore])

/-- src/uploader.py attach_files_to_vector_store: guard against an empty file
set or missing store, then create the batch; the poll loop
(wait_for_batch_completion, bounded by its timeout) is folded into the
batchAttachOk outcome, false covering every non-completed terminal status,
timeout and exception. -/
def UploaderPy.attach_files_to_vector_store (fileIds : List String) (vsid : String)
    (remote : Remote) : Bool × List RemoteCall :=
  if fileIds = [] ∨ vsid = "" then (false, [])
  else (remote.batchAttachOk, [.createFileBatch vsid fileIds])

/-- src/uploader.py attach_vector_store_to_assistant: one update call whose
success is the bindOk outcome. -/
def UploaderPy.attach_vector_store_to_assistant (aid vsid : String) (remote : Remote) :
    Bool × List RemoteCall :=
  (remote.bindOk, [.updateAssistant aid vsid])

/-- What one setup_assistant run returns and leaves behind: the returned
pair, every configuration passed to save_config in order, and the remote
call trace. -/
structure RunOutcome where
  assistant_id : Option String
  success : Bool
  saved : List Config
  calls : List RemoteCall
deriving DecidableEq

/-- The tail of setup_assistant shared by the existing-assistant and
freshly-created-assistant paths: the binding step, the single config update
and save, and the overall_success expression
len(uploaded) > 0 and (vector_store_success or not vector_store_id). -/
def UploaderPy.finishRun (config : Config) (remote : Remote) (nowts : String)
    (up : List String × List RemoteCall) (gv : Option String × List RemoteCall)
    (att : Bool × List RemoteCall) (vs_success : Bool) (aid : String)
    (createCalls : List RemoteCall) : RunOutcome :=
  let vsid := gv.1
  let bind : Bool × List RemoteCall :=
    if pyTruthyStr vsid ∧ vs_success then
      UploaderPy.attach_vector_store_to_assistant aid (vsid.getD "") remote
    else (false, [])
  let attachment_success := bind.1
  let config1 : Config :=
    { config with
      assistant_id := some aid
      vector_store_id := vsid
      last_upload := some nowts
      files_uploaded := some up.1.length
      vector_store_success := some vs_success
      attachment_success := some attachment_success
      manual_attachment_required := some (!(vs_success && attachment_success))
      chunks_embedded := some (if vs_success then up.1.length else 0) }
  let overall := decide (0 < up.1.length) && (vs_success || !(pyTruthyStr vsid))
  ⟨some aid, overall, [config1], up.2 ++ gv.2 ++ att.2 ++ createCalls ++ bind.2⟩

/-- src/uploader.py setup_assistant, translated branch for branch.  Both
assistant-id tests in the source are Python truthiness tests — `if
assistant_id:` on the empty-files path and `if not assistant_id:` at the
resolution step — so a configured empty-string id takes the create path,
exactly as a missing id does.

Empty files_data: a truthy configured assistant is returned at once with
success and no calls; otherwise an assistant is created, the config saved,
and success returned, unless creation raises, in which case the failure pair
is returned with nothing saved.

Non-empty files_data: upload first, returning failure with nothing saved if
no upload succeeded; then resolve the vector store and attach the batch when
a store is truthy; then resolve the assistant (reuse a truthy configured id,
else create), returning failure with nothing saved if creation raises; then
bind the store to the assistant only when the batch attach succeeded;
finally update and save the config once and return the source's
overall_success expression. -/
def UploaderPy.setup_assistant (selfVsid : Option String) (config : Config)
    (files_data : List FileEntry) (remote : Remote) (nowts : String) : RunOutcome :=
  if files_data = [] then
    if pyTruthyStr config.assistant_id then ⟨config.assistant_id, true, [], []⟩
    else
      match remote.createAssistantResult with
      | some aid => ⟨some aid, true, [{ config with assistant_id := some aid }], [.createAssistant]⟩
      | none => ⟨none, false, [], [.createAssistant]⟩
  else
    let up := UploaderPy.upload_files files_data remote
    if up.1 = [] then ⟨config.assistant_id, false, [], up.2⟩
    else
      let gv := UploaderPy.get_or_create_vector_store selfVsid config remote
      let vsid := gv.1
      let att : Bool × List RemoteCall :=
        if pyTruthyStr vsid then
          UploaderPy.attach_files_to_vector_store up.1 (vsid.getD "") remote
        else (false, [])
      let vs_success := att.1
      if pyTruthyStr config.assistant_id then
        UploaderPy.finishRun config remote nowts up gv att vs_success
          (config.assistant_id.getD "") []
      else
        match remote.createAssistantResult with
        | none => ⟨none, false, [], up.2 ++ gv.2 ++ att.2 ++ [.createAssistant]⟩
        | some aid =>
          UploaderPy.finishRun config remote nowts up gv att vs_success aid [.createAssistant]

/-- The uploaded file ids a run obtains: the first stage of setup_assistant,
exposed for stating the success and persistence characterisations. -/
def UploaderPy.uploadedIdsOf (files : List FileEntry) (remote : Remote) : List String :=
  (UploaderPy.upload_files files remote).1

/-- The vector store id a run resolves. -/
def UploaderPy.vsidOf (selfVsid : Option String) (config : Config) (remote : Remote) :
    Option String :=
  (UploaderPy.get_or_create_vector_store selfVsid config remote).1

/-- Whether the batch attach stage of a run succeeds. -/
def UploaderPy.vsSuccessOf (selfVsid : Option String) (config : Config)
    (files : List FileEntry) (remote : Remote) : Bool :=
  if pyTruthyStr (UploaderPy.vsidOf selfVsid config remote) then
    (UploaderPy.attach_files_to_vector_store (UploaderPy.uploadedIdsOf files remote)
      ((UploaderPy.vsidOf selfVsid config remote).getD "") remote).1
  else false

/-- Whether the run ends up with an assistant id: a truthy (non-empty) id
already configured, or creation succeeding.  A configured empty string is
falsy in Python and is sent to the create path. -/
def UploaderPy.assistantResolvedOf (config : Config) (remote : Remote) : Bool :=
  pyTruthyStr config.assistant_id || remote.createAssistantResult.isSome

/-! ## Generic facts about the detect_changes loop

Both detect_changes implementations share one loop shape: classify each
article against the prior snapshot and write a fresh record into the
accumulating metadata.  detectLoop abstracts that shape over the
classification and the record constructor; each implementation's aux function
is proved equal to its instance. -/

def detectLoop (cl : Article → Bucket) (rec : Article → ρ) (m : List (String × ρ)) :
    List Article → DetectResult ρ
  | [] => ⟨[], [], [], m⟩
  | a :: rest =>
    let r := detectLoop cl rec (dictSet m (artId a) (rec a)) rest
    match cl a with
    | .new => { r with new := a :: r.new }
    | .updated => { r with updated := a :: r.updated }
    | .unchanged => { r with unchanged := a :: r.unchanged }

/-- The metadata a detect_changes run accumulates: one fresh record per
considered article, in order. -/
def foldSet (rec : Article → ρ) (m : List (String × ρ)) : List Article → List (String × ρ)
  | [] => m
  | a :: rest => foldSet rec (dictSet m (artId a) (rec a)) rest

/-! ## Statement helpers and concrete instances -/

/-- Two buckets are disjoint by document id when no article of one shares an
id with an article of the other. -/
def disjointById (l1 l2 : List Article) : Prop :=
  ∀ a ∈ l1, ∀ b ∈ l2, artId a ≠ artId b

/-- The overall-success predicate exactly as the specification words it, for
comparison against the code: at least one file uploaded AND (no index was
ever targeted OR the index was successfully attached and successfully bound
to the agent). -/
def specOverallSuccess (uploadedCount : Nat) (indexTargeted attached bound : Bool) : Bool :=
  decide (0 < uploadedCount) && (!indexTargeted || (attached && bound))

/-- Two articles sharing one id with bodies a and b, and a third with a
distinct id: the concrete inputs used by witnesses and counterexamples. -/
def exArtDa : Article := ⟨some "1", some "T", some "a", none, none⟩

def exArtDb : Article := ⟨some "1", some "T", some "b", none, none⟩

def exArt2 : Article := ⟨some "2", some "U", some "c", none, none⟩

/-- Bodies that differ only in the length of a newline run. -/
def exArtNl4 : Article := ⟨some "1", some "T", some "x\n\n\n\ny", none, none⟩

def exArtNl2 : Article := ⟨some "1", some "T", some "x\n\ny", none, none⟩

def exArtY : Article := ⟨some "1", some "T", some "y", none, none⟩

/-- A prior snapshot holding the hash of body b under id 1. -/
def exPriorB : List (String × SMeta) :=
  [("1", ⟨"T", "", calculate_content_hash "b", "t"⟩)]

/-- A remote environment where everything succeeds. -/
def exRemoteOk : Remote :=
  ⟨fun _ => some "file-1", some "asst-A", fun _ => true, some "vs-new", true, true⟩

/-- A remote environment where only the final agent binding fails. -/
def exRemoteBindFail : Remote :=
  ⟨fun _ => some "file-1", some "asst-A", fun _ => true, none, true, false⟩

/-- A remote environment where every file upload fails. -/
def exRemoteUploadFail : Remote :=
  ⟨fun _ => none, some "asst-A", fun _ => true, none, true, true⟩

/-- A configuration already holding an assistant and a vector store id. -/
def exConfigAV : Config :=
  { emptyConfig with assistant_id := some "asst-A", vector_store_id := some "vs-V" }

/-- One file entry to feed the sync driver. -/
def exFile : FileEntry := ⟨"a.md", "hello", some "1", some "T"⟩

/-! ## Dictionary lemmas -/

theorem dictHasKey_eq_isSome (d : List (String × β)) (k : String) :
    dictHasKey d k = (dictGet? d k).isSome := by
  induction d with
  | nil => rfl
  | cons p t ih =>
    by_cases hp : p.1 = k
    · simp [dictHasKey, dictGet?, hp]
    · simp [dictHasKey, dictGet?, hp, ih]

theorem dictGet?_set_self (d : List (String × β)) (k : String) (v : β) :
    dictGet? (dictSet d k v) k = some v := by
  induction d with
  | nil => simp [dictSet, dictGet?]
  | cons p t ih =>
    by_cases hp : p.1 = k
    · simp [dictSet, dictGet?, hp]
    · simp [dictSet, dictGet?, hp, ih]

theorem dictGet?_set_ne (d : List (String × β)) (k k' : String) (v : β) (h : k' ≠ k) :
    dictGet? (dictSet d k v) k' = dictGet? d k' := by
  have hk : ¬ (k = k') := fun e => h e.symm
  induction d with
  | nil => simp [dictSet, dictGet?, hk]
  | cons p t ih =>
    by_cases hp : p.1 = k
    · simp [dictSet, dictGet?, hp, hk]
    · simp [dictSet, dictGet?, hp, ih]

theorem mem_dictSet (d : List (String × β)) (k : String) (v : β) (p : String × β)
    (h : p ∈ dictSet d k v) : p ∈ d ∨ p.1 = k := by
  induction d with
  | nil =>
    simp [dictSet] at h
    subst h
    exact Or.inr rfl
  | cons q t ih =>
    by_cases hq : q.1 = k
    · simp [dictSet, hq] at h
      rcases h with h | h
      · subst h
        exact Or.inr rfl
      · exact Or.inl (List.mem_cons_of_mem q h)
    · simp [dictSet, hq] at h
      rcases h with h | h
      · subst h
        exact Or.inl (List.mem_cons_self _ _)
      · rcases ih h with h' | h'
        · exact Or.inl (List.mem_cons_of_mem q h')
        · exact Or.inr h'

theorem scraper_detectAux_eq_loop (prior m : List (String × SMeta)) (l : List Article) :
    ScraperPy.detectAux prior m l = detectLoop (ScraperPy.classify prior) ScraperPy.srecOf m l := by
  induction l generalizing m with
  | nil => rfl
  | cons a rest ih => simp only [ScraperPy.detectAux, detectLoop, ih]

theorem main_detectAux_eq_loop (prior m : List (String × MMeta)) (nowts : String)
    (l : List Article) :
    MainPy.detectAux prior m nowts l
      = detectLoop (MainPy.classify prior) (MainPy.mrecOf nowts) m l := by
  induction l generalizing m with
  | nil => rfl
  | cons a rest ih => simp only [MainPy.detectAux, detectLoop, ih]

theorem detectLoop_snapshot (cl : Article → Bucket) (rec : Article → ρ)
    (m : List (String × ρ)) (l : List Article) :
    (detectLoop cl rec m l).snapshot = foldSet rec m l := by
  induction l generalizing m with
  | nil => rfl
  | cons a rest ih =>
    simp only [detectLoop, foldSet]
    cases cl a <;> simp [ih]

theorem detectLoop_lengths (cl : Article → Bucket) (rec : Article → ρ)
    (m : List (String × ρ)) (l : List Article) :
    (detectLoop cl rec m l).new.length + (detectLoop cl rec m l).updated.length
      + (detectLoop cl rec m l).unchanged.length = l.length := by
  induction l generalizing m with
  | nil => rfl
  | cons a rest ih =>
    simp only [detectLoop]
    cases cl a <;>
      simp only [List.length_cons] <;>
      have h := ih (dictSet m (artId a) (rec a)) <;>
      omega

theorem detectLoop_mem_new (cl : Article → Bucket) (rec : Article → ρ)
    (l : List Article) (a : Article) :
    ∀ m : List (String × ρ), a ∈ (detectLoop cl rec m l).new → a ∈ l ∧ cl a = .new := by
  induction l with
  | nil => intro m h; simp [detectLoop] at h
  | cons b rest ih =>
    intro m h
    simp only [detectLoop] at h
    cases hb : cl b <;> simp only [hb] at h
    · rcases List.mem_cons.mp h with h | h
      · subst h; exact ⟨List.mem_cons_self _ _, hb⟩
      · rcases ih _ h with ⟨h1, h2⟩; exact ⟨List.mem_cons_of_mem b h1, h2⟩
    · rcases ih _ h with ⟨h1, h2⟩; exact ⟨List.mem_cons_of_mem b h1, h2⟩
    · rcases ih _ h with ⟨h1, h2⟩; exact ⟨List.mem_cons_of_mem b h1, h2⟩

theorem detectLoop_mem_updated (cl : Article → Bucket) (rec : Article → ρ)
    (l : List Article) (a : Article) :
    ∀ m : List (String × ρ), a ∈ (detectLoop cl rec m l).updated → a ∈ l ∧ cl a = .updated := by
  induction l with
  | nil => intro m h; simp [detectLoop] at h
  | cons b rest ih =>
    intro m h
    simp only [detectLoop] at h
    cases hb : cl b <;> simp only [hb] at h
    · rcases ih _ h with ⟨h1, h2⟩; exact ⟨List.mem_cons_of_mem b h1, h2⟩
    · rcases List.mem_cons.mp h with h | h
      · subst h; exact ⟨List.mem_cons_self _ _, hb⟩
      · rcases ih _ h with ⟨h1, h2⟩; exact ⟨List.mem_cons_of_mem b h1, h2⟩
    · rcases ih _ h with ⟨h1, h2⟩; exact ⟨List.mem_cons_of_mem b h1, h2⟩

theorem detectLoop_mem_unchanged (cl : Article → Bucket) (rec : Article → ρ)
    (l : List Article) (a : Article) :
    ∀ m : List (String × ρ), a ∈ (detectLoop cl rec m l).unchanged → a ∈ l ∧ cl a = .unchanged := by
  induction l with
  | nil => intro m h; simp [detectLoop] at h
  | cons b rest ih =>
    intro m h
    simp only [detectLoop] at h
    cases hb : cl b <;> simp only [hb] at h
    · rcases ih _ h with ⟨h1, h2⟩; exact ⟨List.mem_cons_of_mem b h1, h2⟩
    · rcases ih _ h with ⟨h1, h2⟩; exact ⟨List.mem_cons_of_mem b h1, h2⟩
    · rcases List.mem_cons.mp h with h | h
      · subst h; exact ⟨List.mem_cons_self _ _, hb⟩
      · rcases ih _ h with ⟨h1, h2⟩; exact ⟨List.mem_cons_of_mem b h1, h2⟩

theorem detectLoop_all_unchanged (cl : Article → Bucket) (rec : Article → ρ)
    (l : List Article) (hall : ∀ a ∈ l, cl a = .unchanged) :
    ∀ m : List (String × ρ), detectLoop cl rec m l = ⟨[], [], l, foldSet rec m l⟩ := by
  induction l with
  | nil => intro m; rfl
  | cons b rest ih =>
    intro m
    have hb : cl b = .unchanged := hall b (List.mem_cons_self _ _)
    simp only [detectLoop, hb, foldSet]
    rw [ih (fun a ha => hall a (List.mem_cons_of_mem b ha))]

theorem detectLoop_buckets_ext (cl : Article → Bucket) (rec1 rec2 : Article → ρ)
    (l : List Article) :
    ∀ m1 m2 : List (String × ρ),
      (detectLoop cl rec1 m1 l).new = (detectLoop cl rec2 m2 l).new
      ∧ (detectLoop cl rec1 m1 l).updated = (detectLoop cl rec2 m2 l).updated
      ∧ (detectLoop cl rec1 m1 l).unchanged = (detectLoop cl rec2 m2 l).unchanged := by
  induction l with
  | nil => intro m1 m2; exact ⟨rfl, rfl, rfl⟩
  | cons b rest ih =>
    intro m1 m2
    simp only [detectLoop]
    rcases ih (dictSet m1 (artId b) (rec1 b)) (dictSet m2 (artId b) (rec2 b)) with ⟨h1, h2, h3⟩
    cases cl b <;> simp [h1, h2, h3]

theorem foldSet_get_notin (rec : Article → ρ) (l : List Article) (k : String)
    (hk : k ∉ l.map artId) :
    ∀ m : List (String × ρ), dictGet? (foldSet rec m l) k = dictGet? m k := by
  induction l with
  | nil => intro m; rfl
  | cons b rest ih =>
    intro m
    simp only [List.map_cons, List.mem_cons, not_or] at hk
    simp only [foldSet]
    rw [ih hk.2, dictGet?_set_ne _ _ _ _ (fun e => hk.1 (e.trans rfl))]

theorem foldSet_get_nodup (rec : Article → ρ) (l : List Article)
    (hnd : (l.map artId).Nodup) (a : Article) (ha : a ∈ l) :
    ∀ m : List (String × ρ), dictGet? (foldSet rec m l) (artId a) = some (rec a) := by
  induction l with
  | nil => exact absurd ha (List.not_mem_nil a)
  | cons b rest ih =>
    intro m
    simp only [List.map_cons, List.nodup_cons] at hnd
    rcases List.mem_cons.mp ha with h | h
    · subst h
      simp only [foldSet]
      rw [foldSet_get_notin rec rest (artId a) hnd.1, dictGet?_set_self]
    · exact ih hnd.2 h _

theorem mem_foldSet (rec : Article → ρ) (l : List Article) (p : String × ρ) :
    ∀ m : List (String × ρ), p ∈ foldSet rec m l → p ∈ m ∨ ∃ a ∈ l, artId a = p.1 := by
  induction l with
  | nil => intro m h; exact Or.inl h
  | cons b rest ih =>
    intro m h
    simp only [foldSet] at h
    rcases ih _ h with h' | h'
    · rcases mem_dictSet _ _ _ _ h' with h'' | h''
      · exact Or.inl h''
      · exact Or.inr ⟨b, List.mem_cons_self _ _, h''.symm⟩
    · rcases h' with ⟨a, ha, hae⟩
      exact Or.inr ⟨a, List.mem_cons_of_mem b ha, hae⟩

/-- Injectivity on members of a list whose image under f has no duplicates. -/
theorem nodup_map_mem_inj (f : α → γ) (l : List α) (hnd : (l.map f).Nodup)
    (a b : α) (ha : a ∈ l) (hb : b ∈ l) (hfe : f a = f b) : a = b := by
  induction l with
  | nil => exact absurd ha (List.not_mem_nil a)
  | cons c rest ih =>
    simp only [List.map_cons, List.nodup_cons] at hnd
    rcases List.mem_cons.mp ha with h | h <;> rcases List.mem_cons.mp hb with h' | h'
    · exact h.trans h'.symm
    · subst h
      exact absurd (hfe ▸ List.mem_map_of_mem f h') hnd.1
    · subst h'
      exact absurd (hfe ▸ List.mem_map_of_mem f h) hnd.1
    · exact ih hnd.2 h h'

/-- The collision-freedom idealisation made explicit: the modelled hash is
injective. -/
theorem calculate_content_hash_inj (a b : String)
    (h : calculate_content_hash a = calculate_content_hash b) : a = b := by
  unfold calculate_content_hash at h
  have hd := congrArg String.data h
  simp only [String.data_append] at hd
  exact String.ext (List.append_cancel_left hd)

/-- An article whose fresh record is already stored under its id is
classified unchanged by src/scraper.py. -/
theorem scraper_classify_unchanged_of_get (prior : List (String × SMeta)) (a : Article)
    (h : dictGet? prior (artId a) = some (ScraperPy.srecOf a)) :
    ScraperPy.classify prior a = .unchanged := by
  unfold ScraperPy.classify
  rw [dictHasKey_eq_isSome, h]
  simp [ScraperPy.srecOf]

/-- An article whose fresh record is already stored under its id is
classified unchanged by main.py, whatever clock reading produced the stored
record. -/
theorem main_classify_unchanged_of_get (prior : List (String × MMeta)) (a : Article)
    (t : String) (h : dictGet? prior (artId a) = some (MainPy.mrecOf t a)) :
    MainPy.classify prior a = .unchanged := by
  unfold MainPy.classify
  rw [dictHasKey_eq_isSome, h]
  simp [MainPy.mrecOf]

theorem ScraperPy.processAux_append (saveOk : Nat → Bool) (l1 l2 : List Article) :
    ∀ i, ScraperPy.processAux saveOk i (l1 ++ l2)
      = ScraperPy.processAux saveOk i l1
        ++ ScraperPy.processAux saveOk (i + l1.length) l2 := by
  induction l1 with
  | nil => intro i; simp [ScraperPy.processAux]
  | cons a rest ih =>
    intro i
    simp only [List.cons_append, ScraperPy.processAux]
    have harith : i + 1 + rest.length = i + (rest.length + 1) := by omega
    by_cases h : saveOk i <;>
      simp [h, ih (i + 1), List.length_cons, harith]

theorem ScraperPy.processAux_length_le (saveOk : Nat → Bool) (l : List Article) :
    ∀ i, (ScraperPy.processAux saveOk i l).length ≤ l.length := by
  induction l with
  | nil => intro i; exact Nat.le_refl 0
  | cons a rest ih =>
    intro i
    simp only [ScraperPy.processAux]
    by_cases h : saveOk i
    · simpa [h] using Nat.succ_le_succ (ih (i + 1))
    · simp only [h, Bool.false_eq_true, if_false, List.length_cons]
      exact Nat.le_succ_of_le (ih (i + 1))

theorem pyTruncate_nil (limit : Option Int) : pyTruncate ([] : List α) limit = [] := by
  cases limit with
  | none => rfl
  | some n =>
    simp only [pyTruncate, pySliceTo]
    split
    · rfl
    · split <;> simp

theorem length_pos_eq_not_isEmpty (l : List α) : decide (0 < l.length) = !l.isEmpty := by
  cases l <;> simp

/-! ## The claims -/

/-- Claim C1, corrected.  main.py's detect_changes fingerprints the canonical
markdown text: two bodies with equal canonical text always receive equal
fingerprints, and bodies with different canonical text receive different
fingerprints (collision-freedom idealisation); the record field compared and
stored is exactly that hash.  src/scraper.py's detect_changes instead stores
the hash of the raw body, so there the fingerprint is not a function of the
canonical text alone. -/
theorem c1_amended :
    (∀ (t : String) (a1 a2 : Article),
        MainPy.clean_html_to_markdown (artBody a1) = MainPy.clean_html_to_markdown (artBody a2) →
        (MainPy.mrecOf t a1).hash = (MainPy.mrecOf t a2).hash)
    ∧ (∀ (t : String) (a1 a2 : Article),
        MainPy.clean_html_to_markdown (artBody a1) ≠ MainPy.clean_html_to_markdown (artBody a2) →
        (MainPy.mrecOf t a1).hash ≠ (MainPy.mrecOf t a2).hash)
    ∧ (∀ a : Article, (ScraperPy.srecOf a).content_hash = calculate_content_hash (artBody a)) := by
  refine ⟨?_, ?_, fun a => rfl⟩
  · intro t a1 a2 h
    simp [MainPy.mrecOf, MainPy.contentHashOf, h]
  · intro t a1 a2 h hc
    simp only [MainPy.mrecOf, MainPy.contentHashOf] at hc
    exact h (calculate_content_hash_inj _ _ hc)

/-- Claim C1, counterexample to the claim as stated: two raw bodies that
normalise to the same canonical text under both normalisers nevertheless get
different fingerprints from src/scraper.py's detect_changes, because it
hashes the raw body. -/
theorem c1_counterexample :
    ScraperPy.clean_html_to_markdown "x\n\n\n\ny" = ScraperPy.clean_html_to_markdown "x\n\ny"
    ∧ MainPy.clean_html_to_markdown "x\n\n\n\ny" = MainPy.clean_html_to_markdown "x\n\ny"
    ∧ (ScraperPy.detect_changes [exArtNl4] none []).snapshot
        ≠ (ScraperPy.detect_changes [exArtNl2] none []).snapshot
    ∧ (ScraperPy.srecOf exArtNl4).content_hash ≠ (ScraperPy.srecOf exArtNl2).content_hash := by
  refine ⟨by decide, by decide, by decide, by decide⟩

/-- Claim C1, witness: the amended theorem applied at the concrete newline
variants and at a genuinely different body. -/
theorem c1_witness :
    (MainPy.mrecOf "T" exArtNl4).hash = (MainPy.mrecOf "T" exArtNl2).hash
    ∧ (MainPy.mrecOf "T" exArtNl4).hash ≠ (MainPy.mrecOf "T" exArtY).hash :=
  ⟨c1_amended.1 "T" exArtNl4 exArtNl2 (by decide),
   c1_amended.2.1 "T" exArtNl4 exArtY (by decide)⟩

/-- Claim C8, corrected.  src/scraper.py's generate_slug lowercases, strips
characters outside word-space-hyphen, collapses whitespace and hyphen runs to
single hyphens, trims boundary hyphens and caps at 50 characters (mapping the
empty title to "untitled"); main.py's generate_slug performs exactly the same
steps but applies no 50-character cap. -/
theorem c8_amended :
    (∀ t : String, t ≠ "" → ScraperPy.generate_slug t = ⟨(MainPy.generate_slug t).data.take 50⟩)
    ∧ ScraperPy.generate_slug "" = "untitled"
    ∧ (∀ t : String, (ScraperPy.generate_slug t).length ≤ 50) := by
  refine ⟨?_, rfl, ?_⟩
  · intro t ht
    simp [ScraperPy.generate_slug, MainPy.generate_slug, ht]
  · intro t
    by_cases ht : t = ""
    · subst ht
      decide
    · simp only [ScraperPy.generate_slug, ht, if_false, String.length]
      rw [List.length_take]
      exact Nat.min_le_left _ _

/-- Claim C8, counterexample to the claim as stated: main.py's generate_slug
returns 60 characters for a 60-character word title, so the result is not
capped at 50 there. -/
theorem c8_counterexample :
    50 < (MainPy.generate_slug (String.mk (List.replicate 60 'a'))).length := by
  decide

/-- Claim C8, witness: the amended theorem applied at a concrete title. -/
theorem c8_witness :
    ScraperPy.generate_slug "Hello World" = ⟨(MainPy.generate_slug "Hello World").data.take 50⟩ :=
  c8_amended.1 "Hello World" (by decide)

/-- Claim C9, confirmed.  With an empty changed-document list and an agent id
X already recorded — a recorded id is a non-empty string, since the source's
`if assistant_id:` is a truthiness test and an empty string would take the
create path — setup_assistant returns (X, True) at once, persists nothing,
and makes no remote calls. -/
theorem c9_noop (selfVsid : Option String) (config : Config) (remote : Remote)
    (nowts x : String) (h : config.assistant_id = some x) (hx : x ≠ "") :
    UploaderPy.setup_assistant selfVsid config [] remote nowts = ⟨some x, true, [], []⟩ := by
  simp [UploaderPy.setup_assistant, pyTruthyStr, h, hx]

/-- Claim C9, witness: the no-op short circuit at a concrete configuration. -/
theorem c9_witness :
    UploaderPy.setup_assistant none { emptyConfig with assistant_id := some "asst-X" }
      [] exRemoteOk "T" = ⟨some "asst-X", true, [], []⟩ :=
  c9_noop none { emptyConfig with assistant_id := some "asst-X" } exRemoteOk "T" "asst-X"
    rfl (by decide)

/-- Claim C4, corrected (idempotence holds once the considered documents have
pairwise distinct ids).  For both implementations: running detect_changes
from the empty snapshot and feeding its output snapshot to a second run over
the same documents and limit yields empty NEW and UPDATED buckets and every
considered document in UNCHANGED; main.py's second run may use any clock
readings. -/
theorem c4_amended (docs : List Article) (limit : Option Int) (t1 t2 : String)
    (hnd : ((pyTruncate docs limit).map artId).Nodup) :
    ((ScraperPy.detect_changes docs limit
        (ScraperPy.detect_changes docs limit []).snapshot).new = []
      ∧ (ScraperPy.detect_changes docs limit
          (ScraperPy.detect_changes docs limit []).snapshot).updated = []
      ∧ (ScraperPy.detect_changes docs limit
          (ScraperPy.detect_changes docs limit []).snapshot).unchanged = pyTruncate docs limit)
    ∧ ((MainPy.detect_changes docs limit
          (MainPy.detect_changes docs limit [] t1).snapshot t2).new = []
      ∧ (MainPy.detect_changes docs limit
          (MainPy.detect_changes docs limit [] t1).snapshot t2).updated = []
      ∧ (MainPy.detect_changes docs limit
          (MainPy.detect_changes docs limit [] t1).snapshot t2).unchanged
          = pyTruncate docs limit) := by
  constructor
  · have hsnap : (ScraperPy.detect_changes docs limit []).snapshot
        = foldSet ScraperPy.srecOf [] (pyTruncate docs limit) := by
      simp only [ScraperPy.detect_changes, scraper_detectAux_eq_loop, detectLoop_snapshot]
    have hall : ∀ a ∈ pyTruncate docs limit,
        ScraperPy.classify (ScraperPy.detect_changes docs limit []).snapshot a = .unchanged := by
      intro a ha
      apply scraper_classify_unchanged_of_get
      rw [hsnap]
      exact foldSet_get_nodup _ _ hnd a ha []
    have h2 : ScraperPy.detect_changes docs limit
        (ScraperPy.detect_changes docs limit []).snapshot
        = ⟨[], [], pyTruncate docs limit,
            foldSet ScraperPy.srecOf [] (pyTruncate docs limit)⟩ := by
      show ScraperPy.detectAux (ScraperPy.detect_changes docs limit []).snapshot []
        (pyTruncate docs limit) = _
      rw [scraper_detectAux_eq_loop]
      exact detectLoop_all_unchanged _ _ _ hall []
    rw [h2]
    exact ⟨rfl, rfl, rfl⟩
  · have hsnap : (MainPy.detect_changes docs limit [] t1).snapshot
        = foldSet (MainPy.mrecOf t1) [] (pyTruncate docs limit) := by
      simp only [MainPy.detect_changes, main_detectAux_eq_loop, detectLoop_snapshot]
    have hall : ∀ a ∈ pyTruncate docs limit,
        MainPy.classify (MainPy.detect_changes docs limit [] t1).snapshot a = .unchanged := by
      intro a ha
      apply main_classify_unchanged_of_get _ _ t1
      rw [hsnap]
      exact foldSet_get_nodup _ _ hnd a ha []
    have h2 : MainPy.detect_changes docs limit
        (MainPy.detect_changes docs limit [] t1).snapshot t2
        = ⟨[], [], pyTruncate docs limit,
            foldSet (MainPy.mrecOf t2) [] (pyTruncate docs limit)⟩ := by
      show MainPy.detectAux (MainPy.detect_changes docs limit [] t1).snapshot [] t2
        (pyTruncate docs limit) = _
      rw [main_detectAux_eq_loop]
      exact detectLoop_all_unchanged _ _ _ hall []
    rw [h2]
    exact ⟨rfl, rfl, rfl⟩

/-- Claim C4, counterexample to the claim as stated: with two documents
sharing one id but different bodies, the second run's UPDATED bucket is
non-empty, because the snapshot keeps only the last occurrence's hash. -/
theorem c4_counterexample :
    (ScraperPy.detect_changes [exArtDa, exArtDb] none
      (ScraperPy.detect_changes [exArtDa, exArtDb] none []).snapshot).updated
      = [exArtDa] := by
  decide

/-- Claim C4, witness: idempotence at two concrete documents with distinct
ids. -/
theorem c4_witness :
    (ScraperPy.detect_changes [exArtDa, exArt2] none
      (ScraperPy.detect_changes [exArtDa, exArt2] none []).snapshot).unchanged
      = pyTruncate [exArtDa, exArt2] none
    ∧ (MainPy.detect_changes [exArtDa, exArt2] none
        (MainPy.detect_changes [exArtDa, exArt2] none [] "T1").snapshot "T2").updated = [] :=
  ⟨(c4_amended [exArtDa, exArt2] none "T1" "T2" (by decide)).1.2.2,
   (c4_amended [exArtDa, exArt2] none "T1" "T2" (by decide)).2.2.1⟩

/-- Claim C5, corrected.  The bucket sizes always sum to the number of
considered documents; the three buckets are pairwise disjoint by document id
provided the considered documents carry pairwise distinct ids (with duplicate
ids one id can appear in two buckets). -/
theorem c5_amended :
    (∀ (docs : List Article) (limit : Option Int) (prior : List (String × SMeta)),
      (ScraperPy.detect_changes docs limit prior).new.length
        + (ScraperPy.detect_changes docs limit prior).updated.length
        + (ScraperPy.detect_changes docs limit prior).unchanged.length
        = (pyTruncate docs limit).length)
    ∧ (∀ (docs : List Article) (limit : Option Int) (prior : List (String × SMeta)),
        ((pyTruncate docs limit).map artId).Nodup →
        disjointById (ScraperPy.detect_changes docs limit prior).new
            (ScraperPy.detect_changes docs limit prior).updated
        ∧ disjointById (ScraperPy.detect_changes docs limit prior).new
            (ScraperPy.detect_changes docs limit prior).unchanged
        ∧ disjointById (ScraperPy.detect_changes docs limit prior).updated
            (ScraperPy.detect_changes docs limit prior).unchanged) := by
  constructor
  · intro docs limit prior
    simp only [ScraperPy.detect_changes, scraper_detectAux_eq_loop]
    exact detectLoop_lengths _ _ _ _
  · intro docs limit prior hnd
    simp only [ScraperPy.detect_changes, scraper_detectAux_eq_loop]
    refine ⟨?_, ?_, ?_⟩ <;> intro a ha b hb heq
    · rcases detectLoop_mem_new _ _ _ _ _ ha with ⟨ha1, ha2⟩
      rcases detectLoop_mem_updated _ _ _ _ _ hb with ⟨hb1, hb2⟩
      obtain rfl := nodup_map_mem_inj artId _ hnd a b ha1 hb1 heq
      exact absurd (ha2.symm.trans hb2) (by decide)
    · rcases detectLoop_mem_new _ _ _ _ _ ha with ⟨ha1, ha2⟩
      rcases detectLoop_mem_unchanged _ _ _ _ _ hb with ⟨hb1, hb2⟩
      obtain rfl := nodup_map_mem_inj artId _ hnd a b ha1 hb1 heq
      exact absurd (ha2.symm.trans hb2) (by decide)
    · rcases detectLoop_mem_updated _ _ _ _ _ ha with ⟨ha1, ha2⟩
      rcases detectLoop_mem_unchanged _ _ _ _ _ hb with ⟨hb1, hb2⟩
      obtain rfl := nodup_map_mem_inj artId _ hnd a b ha1 hb1 heq
      exact absurd (ha2.symm.trans hb2) (by decide)

/-- Claim C5, counterexample to the claim as stated: with a duplicated id,
one document lands in UPDATED and the other in UNCHANGED while both carry the
same document id, so the buckets are not pairwise disjoint by id. -/
theorem c5_counterexample :
    (ScraperPy.detect_changes [exArtDa, exArtDb] none exPriorB).updated = [exArtDa]
    ∧ (ScraperPy.detect_changes [exArtDa, exArtDb] none exPriorB).unchanged = [exArtDb]
    ∧ artId exArtDa = artId exArtDb := by
  refine ⟨by decide, by decide, rfl⟩

/-- Claim C5, witness: totality and a disjointness instance at concrete
distinct-id documents. -/
theorem c5_witness :
    (ScraperPy.detect_changes [exArtDa, exArt2] none []).new.length
      + (ScraperPy.detect_changes [exArtDa, exArt2] none []).updated.length
      + (ScraperPy.detect_changes [exArtDa, exArt2] none []).unchanged.length
      = (pyTruncate [exArtDa, exArt2] none).length
    ∧ disjointById (ScraperPy.detect_changes [exArtDa, exArt2] none []).new
        (ScraperPy.detect_changes [exArtDa, exArt2] none []).updated :=
  ⟨c5_amended.1 [exArtDa, exArt2] none [],
   (c5_amended.2 [exArtDa, exArt2] none [] (by decide)).1⟩

/-- Claim C6, corrected (for positive limits).  For every positive integer N,
detect_changes over docs with limit N behaves exactly as a run over the first
N-truncated prefix with no limit, that prefix has min(N, len(docs)) elements
in source order, and every entry of the produced snapshot carries the id of
some considered document.  The correction: a limit of 0 is falsy in Python
and means no limit at all, not zero considered documents. -/
theorem c6_amended (docs : List Article) (N : Int) (prior : List (String × SMeta))
    (h : 0 < N) :
    ScraperPy.detect_changes docs (some N) prior
      = ScraperPy.detect_changes (docs.take N.toNat) none prior
    ∧ (docs.take N.toNat).length = min N.toNat docs.length
    ∧ ∀ p ∈ (ScraperPy.detect_changes docs (some N) prior).snapshot,
        ∃ a ∈ docs.take N.toNat, artId a = p.1 := by
  have hne : ¬(N = 0) := by omega
  have hge : (0 : Int) ≤ N := by omega
  have htr : pyTruncate docs (some N) = docs.take N.toNat := by
    simp [pyTruncate, pySliceTo, hne, hge]
  refine ⟨?_, by simp [List.length_take], ?_⟩
  · show ScraperPy.detectAux prior [] (pyTruncate docs (some N))
      = ScraperPy.detectAux prior [] (pyTruncate (docs.take N.toNat) none)
    rw [htr]
    rfl
  · intro p hp
    simp only [ScraperPy.detect_changes, scraper_detectAux_eq_loop, detectLoop_snapshot,
      htr] at hp
    rcases mem_foldSet _ _ _ _ hp with h' | h'
    · exact absurd h' (List.not_mem_nil p)
    · exact h'

/-- Claim C6, counterexample to the claim as stated: with limit 0 over one
document, the claim demands min(0, 1) = 0 considered documents and an empty
snapshot, but the code treats 0 as falsy, considers the document, classifies
it NEW and records a snapshot entry. -/
theorem c6_counterexample :
    (ScraperPy.detect_changes [exArtDa] (some 0) []).new = [exArtDa]
    ∧ (ScraperPy.detect_changes [exArtDa] (some 0) []).snapshot ≠ []
    ∧ min ((0 : Int).toNat) [exArtDa].length = 0 := by
  refine ⟨by decide, by decide, rfl⟩

/-- Claim C6, witness: the amended theorem at limit 1 over two documents. -/
theorem c6_witness :
    ScraperPy.detect_changes [exArtDa, exArt2] (some 1) []
      = ScraperPy.detect_changes ([exArtDa, exArt2].take (1 : Int).toNat) none []
    ∧ ([exArtDa, exArt2].take (1 : Int).toNat).length
        = min (1 : Int).toNat [exArtDa, exArt2].length :=
  ⟨(c6_amended [exArtDa, exArt2] 1 [] (by decide)).1,
   (c6_amended [exArtDa, exArt2] 1 [] (by decide)).2.1⟩

/-- Claim C7, corrected.  Both detectors are pure functions of their inputs:
src/scraper.py's partition and snapshot are byte-for-byte reproducible from
the documents, limit and prior snapshot alone, and main.py's partition is
reproducible and independent of the clock; but main.py's snapshot also
depends on the datetime.now() reading stored in last_checked, so it is not
byte-for-byte reproducible across runs at different times. -/
theorem c7_amended :
    (∀ (d1 d2 : List Article) (l1 l2 : Option Int) (p1 p2 : List (String × SMeta)),
      d1 = d2 → l1 = l2 → p1 = p2 →
      ScraperPy.detect_changes d1 l1 p1 = ScraperPy.detect_changes d2 l2 p2)
    ∧ (∀ (docs : List Article) (limit : Option Int) (prior : List (String × MMeta))
        (t1 t2 : String),
      (MainPy.detect_changes docs limit prior t1).new
          = (MainPy.detect_changes docs limit prior t2).new
      ∧ (MainPy.detect_changes docs limit prior t1).updated
          = (MainPy.detect_changes docs limit prior t2).updated
      ∧ (MainPy.detect_changes docs limit prior t1).unchanged
          = (MainPy.detect_changes docs limit prior t2).unchanged) := by
  constructor
  · intro d1 d2 l1 l2 p1 p2 h1 h2 h3
    subst h1
    subst h2
    subst h3
    rfl
  · intro docs limit prior t1 t2
    simp only [MainPy.detect_changes, main_detectAux_eq_loop]
    exact detectLoop_buckets_ext _ _ _ _ [] []

/-- Claim C7, counterexample to the claim as stated: the same documents,
limit and prior snapshot at two different clock readings give different
results from main.py's detect_changes, because the snapshot embeds the
last_checked timestamp. -/
theorem c7_counterexample :
    MainPy.detect_changes [exArtDa] none [] "2024-01-01T00:00:00"
      ≠ MainPy.detect_changes [exArtDa] none [] "2024-01-02T00:00:00" := by
  decide

/-- Claim C7, witness: the determinism statements instantiated at concrete
inputs. -/
theorem c7_witness :
    ScraperPy.detect_changes [exArtDa] none [] = ScraperPy.detect_changes [exArtDa] none []
    ∧ (MainPy.detect_changes [exArtDa] none [] "T1").new
        = (MainPy.detect_changes [exArtDa] none [] "T2").new :=
  ⟨c7_amended.1 [exArtDa] [exArtDa] none none [] [] rfl rfl rfl,
   (c7_amended.2 [exArtDa] none [] "T1" "T2").1⟩

/-- Claim C10, confirmed.  scrape_articles reports the full NEW and UPDATED
bucket sizes as added and updated whatever the save outcomes; the files list
is exactly the successfully saved entries, all NEW articles before all
UPDATED ones in source order; its length never exceeds added plus updated and
is strictly smaller when a save fails, as the final conjunct shows at a
concrete failing save. -/
theorem c10_counts_and_order :
    (∀ (articles : List Article) (limit : Option Int) (prior : List (String × SMeta))
        (saveOk : Nat → Bool),
      (ScraperPy.scrape_articles articles limit prior saveOk).added
          = (ScraperPy.detect_changes articles limit prior).new.length
      ∧ (ScraperPy.scrape_articles articles limit prior saveOk).updated
          = (ScraperPy.detect_changes articles limit prior).updated.length
      ∧ (ScraperPy.scrape_articles articles limit prior saveOk).files
          = ScraperPy.processAux saveOk 1 (ScraperPy.detect_changes articles limit prior).new
            ++ ScraperPy.processAux saveOk
                (1 + (ScraperPy.detect_changes articles limit prior).new.length)
                (ScraperPy.detect_changes articles limit prior).updated
      ∧ (ScraperPy.scrape_articles articles limit prior saveOk).files.length
          ≤ (ScraperPy.scrape_articles articles limit prior saveOk).added
            + (ScraperPy.scrape_articles articles limit prior saveOk).updated)
    ∧ (ScraperPy.scrape_articles [exArtDa] none [] (fun _ => false)).files.length
        < (ScraperPy.scrape_articles [exArtDa] none [] (fun _ => false)).added
          + (ScraperPy.scrape_articles [exArtDa] none [] (fun _ => false)).updated := by
  constructor
  · intro articles limit prior saveOk
    by_cases ha : articles = []
    · subst ha
      have hd : ScraperPy.detect_changes [] limit prior = ⟨[], [], [], []⟩ := by
        simp only [ScraperPy.detect_changes, pyTruncate_nil]
        rfl
      simp [ScraperPy.scrape_articles, hd, ScraperPy.processAux]
    · by_cases hp : (ScraperPy.detect_changes articles limit prior).new
          ++ (ScraperPy.detect_changes articles limit prior).updated = []
      · have hn := (List.append_eq_nil.mp hp).1
        have hu := (List.append_eq_nil.mp hp).2
        simp [ScraperPy.scrape_articles, ha, hp, hn, hu, ScraperPy.processAux]
      · have hmain : ScraperPy.scrape_articles articles limit prior saveOk
            = ⟨(ScraperPy.detect_changes articles limit prior).new.length,
               (ScraperPy.detect_changes articles limit prior).updated.length,
               (ScraperPy.detect_changes articles limit prior).unchanged.length,
               ScraperPy.processAux saveOk 1
                 ((ScraperPy.detect_changes articles limit prior).new
                   ++ (ScraperPy.detect_changes articles limit prior).updated)⟩ := by
          simp [ScraperPy.scrape_articles, ha, hp]
        rw [hmain]
        refine ⟨rfl, rfl, ?_, ?_⟩
        · exact ScraperPy.processAux_append saveOk _ _ 1
        · calc (ScraperPy.processAux saveOk 1
              ((ScraperPy.detect_changes articles limit prior).new
                ++ (ScraperPy.detect_changes articles limit prior).updated)).length
              ≤ ((ScraperPy.detect_changes articles limit prior).new
                  ++ (ScraperPy.detect_changes articles limit prior).updated).length :=
                ScraperPy.processAux_length_le saveOk _ 1
            _ = _ := List.length_append _ _
  · decide

/-- Claim C2, corrected.  For a non-empty changed-document list the returned
flag equals: at least one file uploaded AND the assistant resolved (a truthy
non-empty id already configured, or created without an exception) AND (no
vector store was targeted OR the file batch was attached to it
successfully).  Successful binding of the store to the agent is NOT part of
the flag, contrary to the claim; partial success is returned as a value (the
embedding is total and every failure path returns a pair). -/
theorem c2_amended (selfVsid : Option String) (config : Config) (files : List FileEntry)
    (remote : Remote) (nowts : String) (hf : files ≠ []) :
    (UploaderPy.setup_assistant selfVsid config files remote nowts).success
      = (!(UploaderPy.uploadedIdsOf files remote).isEmpty
         && UploaderPy.assistantResolvedOf config remote
         && (UploaderPy.vsSuccessOf selfVsid config files remote
             || !(pyTruthyStr (UploaderPy.vsidOf selfVsid config remote)))) := by
  simp only [UploaderPy.setup_assistant, hf, if_false]
  by_cases hup : (UploaderPy.upload_files files remote).1 = []
  · simp [hup, UploaderPy.uploadedIdsOf]
  · simp only [hup, if_false]
    by_cases hvs : pyTruthyStr (UploaderPy.get_or_create_vector_store selfVsid config remote).1
    · by_cases hca : pyTruthyStr config.assistant_id
      · simp [UploaderPy.finishRun, UploaderPy.uploadedIdsOf, UploaderPy.assistantResolvedOf,
          UploaderPy.vsSuccessOf, UploaderPy.vsidOf, hca, hup, hvs, length_pos_eq_not_isEmpty]
      · cases hcr : remote.createAssistantResult with
        | none =>
          simp [UploaderPy.uploadedIdsOf, UploaderPy.assistantResolvedOf, hca, hcr, hup]
        | some aid =>
          simp [UploaderPy.finishRun, UploaderPy.uploadedIdsOf, UploaderPy.assistantResolvedOf,
            UploaderPy.vsSuccessOf, UploaderPy.vsidOf, hca, hcr, hup, hvs,
            length_pos_eq_not_isEmpty]
    · by_cases hca : pyTruthyStr config.assistant_id
      · simp [UploaderPy.finishRun, UploaderPy.uploadedIdsOf, UploaderPy.assistantResolvedOf,
          UploaderPy.vsSuccessOf, UploaderPy.vsidOf, hca, hup, hvs, length_pos_eq_not_isEmpty]
      · cases hcr : remote.createAssistantResult with
        | none =>
          simp [UploaderPy.uploadedIdsOf, UploaderPy.assistantResolvedOf, hca, hcr, hup]
        | some aid =>
          simp [UploaderPy.finishRun, UploaderPy.uploadedIdsOf, UploaderPy.assistantResolvedOf,
            UploaderPy.vsSuccessOf, UploaderPy.vsidOf, hca, hcr, hup, hvs,
            length_pos_eq_not_isEmpty]

/-- Claim C2, counterexample to the claim as stated: one file uploads, the
vector store verifies and the batch attaches, but binding the store to the
agent fails; the saved configuration records attachment_success = False, yet
setup_assistant returns True, while the specification's formula (attached AND
bound required) yields False. -/
theorem c2_counterexample :
    (UploaderPy.setup_assistant none exConfigAV [exFile] exRemoteBindFail "T").success = true
    ∧ ((UploaderPy.setup_assistant none exConfigAV [exFile] exRemoteBindFail "T").saved.head?.map
        Config.attachment_success) = some (some false)
    ∧ specOverallSuccess 1 true true false = false := by
  refine ⟨by decide, by decide, by decide⟩

/-- Claim C2, witness: the amended success characterisation at the concrete
binding-failure run. -/
theorem c2_witness :
    (UploaderPy.setup_assistant none exConfigAV [exFile] exRemoteBindFail "T").success
      = (!(UploaderPy.uploadedIdsOf [exFile] exRemoteBindFail).isEmpty
         && UploaderPy.assistantResolvedOf exConfigAV exRemoteBindFail
         && (UploaderPy.vsSuccessOf none exConfigAV [exFile] exRemoteBindFail
             || !(pyTruthyStr (UploaderPy.vsidOf none exConfigAV exRemoteBindFail)))) :=
  c2_amended none exConfigAV [exFile] exRemoteBindFail "T" (by decide)

/-- Claim C3, corrected.  The configuration is NOT persisted on every run:
it is saved exactly when either the empty-files path creates a new assistant
(no truthy id configured and creation succeeds), or the non-empty path gets
at least one file uploaded AND resolves an assistant.  Runs that fail in the
upload stage, or fail to create the assistant, or no-op with a truthy
configured assistant, return without persisting anything. -/
theorem c3_amended (selfVsid : Option String) (config : Config) (files : List FileEntry)
    (remote : Remote) (nowts : String) :
    (UploaderPy.setup_assistant selfVsid config files remote nowts).saved ≠ []
      ↔ ((files = [] ∧ pyTruthyStr config.assistant_id = false
            ∧ remote.createAssistantResult.isSome)
         ∨ (files ≠ [] ∧ UploaderPy.uploadedIdsOf files remote ≠ []
            ∧ UploaderPy.assistantResolvedOf config remote = true)) := by
  by_cases hf : files = []
  · by_cases hca : pyTruthyStr config.assistant_id
    · simp [UploaderPy.setup_assistant, hf, hca]
    · cases hcr : remote.createAssistantResult with
      | none => simp [UploaderPy.setup_assistant, hf, hca, hcr]
      | some aid => simp [UploaderPy.setup_assistant, hf, hca, hcr]
  · simp only [UploaderPy.setup_assistant, hf, if_false]
    by_cases hup : (UploaderPy.upload_files files remote).1 = []
    · simp [hup, UploaderPy.uploadedIdsOf, hf]
    · by_cases hca : pyTruthyStr config.assistant_id
      · simp [hup, UploaderPy.finishRun, UploaderPy.uploadedIdsOf,
          UploaderPy.assistantResolvedOf, hca, hf]
      · cases hcr : remote.createAssistantResult with
        | none =>
          simp [hup, UploaderPy.uploadedIdsOf, UploaderPy.assistantResolvedOf, hca, hcr, hf]
        | some aid =>
          simp [hup, UploaderPy.finishRun, UploaderPy.uploadedIdsOf,
            UploaderPy.assistantResolvedOf, hca, hcr, hf]

/-- Claim C3, counterexample to the claim as stated: a run whose uploads all
fail returns failure without persisting any run-state record at all. -/
theorem c3_counterexample :
    (UploaderPy.setup_assistant none exConfigAV [exFile] exRemoteUploadFail "T").saved = []
    ∧ (UploaderPy.setup_assistant none exConfigAV [exFile] exRemoteUploadFail "T").success
        = false := by
  refine ⟨by decide, by decide⟩
